import Mathlib

/-!
Verification of the ISS-spotter client (`iss.js`).

The program chains three HTTP lookups — public-IP discovery (`fetchMyIP`),
geolocation by IP (`fetchCoordsByIP`), and overpass-time lookup by
coordinates (`fetchISSFlyOverTimes`) — under one orchestrator
(`nextISSTimesForMyLocation`).  Each lookup issues exactly one request via
the `request` library and reports its outcome through a node-style callback
`(error, value)`.

Shallow embedding choices, shared by all definitions below:

* A JavaScript runtime value reachable in this program is modelled by
  `JSVal` (JSON values plus `undefined`).  Numbers are rationals; the
  program never performs arithmetic on them, it only stores and displays
  them, so `Rat` is adequate (JS `NaN`/`-0` are unreachable: every number
  in scope comes from `JSON.parse`).
* `JSON.parse` is modelled by equipping each response body with its parse
  outcome (`Body.parsed`): the code observes a body only through the raw
  string (template interpolation) and through `JSON.parse`, which either
  throws a `SyntaxError` or yields a JSON value, never `undefined`.
  Concrete bodies used in theorems below always pair a raw string with the
  parse outcome a real JSON parser gives it.
* The behaviour of one `request.get` call is an `HttpOutcome`: either the
  library invokes the callback with a truthy `error` (transport failure),
  or with a response carrying `statusCode` and `body`.
* Each leaf lookup invokes its node-style callback exactly once per
  request outcome — every branch of the source calls `callback(...)` and
  returns — so a leaf is a pure function `HttpOutcome → Except JSErr JSVal`
  (`Except.error e` ↔ `callback(e, null)`, `Except.ok v` ↔
  `callback(null, v)`).  Callbacks supplied by callers are assumed not to
  throw, as in the repository's own caller (`index.js`).
-/

/-- JavaScript values reachable in this program: JSON values plus
`undefined` (which arises from reading an absent property). -/
inductive JSVal where
  | null : JSVal
  | undefined : JSVal
  | bool : Bool → JSVal
  | num : Rat → JSVal
  | str : String → JSVal
  | arr : List JSVal → JSVal
  | obj : List (String × JSVal) → JSVal

/-- Errors a lookup can hand to its callback: the opaque error object the
`request` library passes on transport failure, the `SyntaxError` thrown by
`JSON.parse`, the `TypeError` thrown by a property read on
`null`/`undefined`, and the `Error(msg)` objects the source constructs
itself. -/
inductive JSErr where
  | transport : String → JSErr
  | syntaxError : String → JSErr
  | typeError : String → JSErr
  | errorObj : String → JSErr
deriving DecidableEq

/-- Rendering of a JS number inside a template literal.  The program only
ever displays numbers taken verbatim from JSON payloads; integral values
render as in JS, and the non-integral fallback is never evaluated by any
theorem below. -/
def jsNumRepr (q : Rat) : String :=
  if q.den = 1 then toString q.num else toString q

/-- String conversion applied by template literals (`String(x)`), as the
source uses in its interpolated error messages. -/
def JSVal.toDisplayString : JSVal → String
  | .null => "null"
  | .undefined => "undefined"
  | .bool true => "true"
  | .bool false => "false"
  | .num q => jsNumRepr q
  | .str s => s
  | .arr xs => String.intercalate "," (joinParts xs)
  | .obj _ => "[object Object]"
where
  /-- Array elements under `Array.prototype.join`: `null` and `undefined`
  render as the empty string. -/
  joinParts : List JSVal → List String
  | [] => []
  | .null :: xs => "" :: joinParts xs
  | .undefined :: xs => "" :: joinParts xs
  | x :: xs => x.toDisplayString :: joinParts xs

/-- JavaScript truthiness, as tested by `if (!data.success)`. -/
def JSVal.truthy : JSVal → Bool
  | .null => false
  | .undefined => false
  | .bool b => b
  | .num q => if q = 0 then false else true
  | .str s => if s = "" then false else true
  | .arr _ => true
  | .obj _ => true

/-- Whether a value is `null` or `undefined` — exactly the receivers on
which a property read throws. -/
def JSVal.nullish : JSVal → Bool
  | .null => true
  | .undefined => true
  | _ => false

/-- Property read `v.k`: throws `TypeError` on `null`/`undefined`, yields
the stored field or `undefined` on objects, and `undefined` on every other
receiver (no property named `ip`, `success`, `message`, `latitude`,
`longitude` or `response` exists on JS primitives or arrays). -/
def JSVal.getField : JSVal → String → Except JSErr JSVal
  | .null, k =>
      .error (.typeError ("Cannot read properties of null (reading " ++ k ++ ")"))
  | .undefined, k =>
      .error (.typeError ("Cannot read properties of undefined (reading " ++ k ++ ")"))
  | .obj fields, k =>
      .ok (match fields.lookup k with
           | some v => v
           | none => .undefined)
  | _, _ => .ok .undefined

/-- Response body as observed by the code: its raw text (used in template
literals) together with the outcome of `JSON.parse` on it (`Except.error`
carries the `SyntaxError` message). -/
structure Body where
  raw : String
  parsed : Except String JSVal

/-- Behaviour of one `request.get` call: the library either reports a
transport failure (truthy `error` argument) or delivers a response with a
status code and a body. -/
inductive HttpOutcome where
  | transportErr : String → HttpOutcome
  | response : Nat → Body → HttpOutcome

/-- Embedding of `fetchMyIP` (src/iss.js lines 12–35): on transport error,
pass the error through; on non-200 status, report
`Error("Status Code <code> when fetching IP. Response: <body>")`; otherwise
parse the body and yield `data.ip` (the `try`/`catch` turns a `JSON.parse`
`SyntaxError` or a property-read `TypeError` into a callback error). -/
def fetchMyIP (net : HttpOutcome) : Except JSErr JSVal :=
  match net with
  | .transportErr e => .error (.transport e)
  | .response statusCode body =>
    if statusCode ≠ 200 then
      .error (.errorObj ("Status Code " ++ toString statusCode ++
        " when fetching IP. Response: " ++ body.raw))
    else
      match body.parsed with
      | .error m => .error (.syntaxError m)
      | .ok data =>
        match data.getField "ip" with
        | .error e => .error e
        | .ok ip => .ok ip

/-- Embedding of `fetchCoordsByIP` (src/iss.js lines 37–60).  The `ip`
argument is interpolated into the request URL only, so it does not affect
the callback outcome; the status code is never inspected.  Inside the
`try`: parse the body; if `data.success` is falsy, report
`Error("Success status was <success>. Server message says: <message> when
fetching for IP <ip>")` (the template re-reads `data.success`,
`data.message` and `data.ip` left to right); otherwise yield the object
`{ latitude: data.latitude, longitude: data.longitude }`. -/
def fetchCoordsByIP (ip : JSVal) (net : HttpOutcome) : Except JSErr JSVal :=
  match net with
  | .transportErr e => .error (.transport e)
  | .response _statusCode body =>
    match body.parsed with
    | .error m => .error (.syntaxError m)
    | .ok data =>
      match data.getField "success" with
      | .error e => .error e
      | .ok succ =>
        if succ.truthy then
          match data.getField "latitude" with
          | .error e => .error e
          | .ok latitude =>
            match data.getField "longitude" with
            | .error e => .error e
            | .ok longitude =>
              .ok (.obj [("latitude", latitude), ("longitude", longitude)])
        else
          match data.getField "success" with
          | .error e => .error e
          | .ok s2 =>
            match data.getField "message" with
            | .error e => .error e
            | .ok msg =>
              match data.getField "ip" with
              | .error e => .error e
              | .ok ipField =>
                .error (.errorObj ("Success status was " ++ s2.toDisplayString ++
                  ". Server message says: " ++ msg.toDisplayString ++
                  " when fetching for IP " ++ ipField.toDisplayString))

/-- Outcome of calling `fetchISSFlyOverTimes`: either the URL template
throws synchronously before any request is issued (a property read on a
nullish `coords`), or the request is issued and the callback is invoked
exactly once. -/
inductive LeafOutcome where
  | thrown : JSErr → LeafOutcome
  | callback : Except JSErr JSVal → LeafOutcome

/-- Embedding of `fetchISSFlyOverTimes` (src/iss.js lines 72–99).  The URL
template reads `coords.latitude` then `coords.longitude` before
`request.get` runs, so a nullish `coords` throws synchronously and no
request is issued.  Otherwise: transport error passes through; a non-200
status reports `Error("Status Code <code> when fetching IP. Response:
<body>")` (the message text is the source's copy-paste from `fetchMyIP`);
otherwise parse the body and yield `data.response`. -/
def fetchISSFlyOverTimes (coords : JSVal) (net : HttpOutcome) : LeafOutcome :=
  match coords.getField "latitude" with
  | .error e => .thrown e
  | .ok _ =>
    match coords.getField "longitude" with
    | .error e => .thrown e
    | .ok _ =>
      match net with
      | .transportErr e => .callback (.error (.transport e))
      | .response statusCode body =>
        if statusCode ≠ 200 then
          .callback (.error (.errorObj ("Status Code " ++ toString statusCode ++
            " when fetching IP. Response: " ++ body.raw)))
        else
          match body.parsed with
          | .error m => .callback (.error (.syntaxError m))
          | .ok data =>
            match data.getField "response" with
            | .error e => .callback (.error e)
            | .ok r => .callback (.ok r)

/-- The three network round trips the orchestrator can issue. -/
inductive Step where
  | ipStep : Step
  | geoStep : Step
  | overpassStep : Step
deriving DecidableEq

/-- Behaviour of the three collaborators' endpoints during one run: what
each `request.get` call would observe if issued. -/
structure NetEnv where
  ipNet : HttpOutcome
  geoNet : HttpOutcome
  overpassNet : HttpOutcome

/-- Observable outcome of one orchestrator run: every invocation of the
completion callback, as `(error, value)` pairs in order, and the network
requests actually issued, in order. -/
structure RunResult where
  invocations : List (Option JSErr × Option JSVal)
  networkCalls : List Step

/-- Embedding of `nextISSTimesForMyLocation` (src/iss.js lines 107–134).
Each branch records the completion-callback invocation the source performs
and the requests issued up to that point:

* `fetchMyIP` fails → `callback(error, null)`, only the IP request ran;
* `fetchCoordsByIP` fails → `callback(error, null)`, IP and geolocation
  requests ran;
* `fetchISSFlyOverTimes` throws while building its URL (only possible for
  a nullish `coords`, which `fetchCoordsByIP` never produces) → the throw
  unwinds into `fetchCoordsByIP`'s `catch`, which re-enters the
  orchestrator's step-2 callback with that error, so the completion
  callback receives it; the overpass request was never issued;
* `fetchISSFlyOverTimes` fails → `callback(error, null)`, all three ran;
* all succeed → `callback(null, flyTimes)` with the overpass value intact. -/
def nextISSTimesForMyLocation (env : NetEnv) : RunResult :=
  match fetchMyIP env.ipNet with
  | .error e => ⟨[(some e, none)], [.ipStep]⟩
  | .ok ip =>
    match fetchCoordsByIP ip env.geoNet with
    | .error e => ⟨[(some e, none)], [.ipStep, .geoStep]⟩
    | .ok coords =>
      match fetchISSFlyOverTimes coords env.overpassNet with
      | .thrown e => ⟨[(some e, none)], [.ipStep, .geoStep]⟩
      | .callback (.error e) => ⟨[(some e, none)], [.ipStep, .geoStep, .overpassStep]⟩
      | .callback (.ok fly) => ⟨[(none, some fly)], [.ipStep, .geoStep, .overpassStep]⟩

/-- Two successive orchestrator runs against identical collaborator
behaviour.  The source module holds no mutable state — its four bindings
are `const` functions capturing nothing mutable — so a second invocation
is the same pure function of the environment. -/
def runTwice (env : NetEnv) : RunResult × RunResult :=
  (nextISSTimesForMyLocation env, nextISSTimesForMyLocation env)

/-- Property reads never throw on a non-nullish receiver. -/
theorem getField_ok_of_not_nullish : ∀ (v : JSVal), v.nullish = false →
    ∀ (k : String), ∃ w, JSVal.getField v k = Except.ok w
  | .null, h, _ => by simp [JSVal.nullish] at h
  | .undefined, h, _ => by simp [JSVal.nullish] at h
  | .bool _, _, _ => ⟨.undefined, rfl⟩
  | .num _, _, _ => ⟨.undefined, rfl⟩
  | .str _, _, _ => ⟨.undefined, rfl⟩
  | .arr _, _, _ => ⟨.undefined, rfl⟩
  | .obj _, _, _ => ⟨_, rfl⟩

/-- Whether a property read throws depends only on the receiver, not on
the key: if one read on `v` succeeded, every read on `v` succeeds. -/
theorem getField_ok_of_getField_ok {v : JSVal} {k : String} {w : JSVal}
    (h : v.getField k = Except.ok w) (l : String) :
    ∃ u, JSVal.getField v l = Except.ok u := by
  cases v <;> first
    | exact ⟨_, rfl⟩
    | simp [JSVal.getField] at h

/-- A successful geolocation lookup always yields a two-field coordinates
object — never a nullish value.  Consequently the overpass lookup's URL
template cannot throw on a value the orchestrator feeds it. -/
theorem fetchCoordsByIP_ok_shape (ip : JSVal) (net : HttpOutcome) (v : JSVal)
    (h : fetchCoordsByIP ip net = Except.ok v) :
    ∃ la lo, v = JSVal.obj [("latitude", la), ("longitude", lo)] := by
  unfold fetchCoordsByIP at h
  repeat' split at h
  all_goals cases h
  exact ⟨_, _, rfl⟩

example : fetchMyIP (.response 200 ⟨"\x7b\"ip\":\"1.2.3.4\"\x7d",
    .ok (.obj [("ip", .str "1.2.3.4")])⟩) = .ok (.str "1.2.3.4") := rfl

example : fetchMyIP (.response 200 ⟨"\x7b\x7d", .ok (.obj [])⟩) =
    .ok .undefined := rfl

example : JSVal.truthy (.num 0) = false := by decide

example : jsNumRepr 600 = "600" := by decide

/-- C1: whichever step of the orchestrator fails first, no subsequent
leaf lookup is invoked (an IP-lookup failure issues no geolocation or
overpass request; a geolocation failure issues no overpass request), and
the completion callback receives exactly the failing step's error
unchanged together with a null result.  The overpass step can only fail
through its callback: the last conjunct shows its synchronous-throw case
never follows a geolocation success, so the three failure cases listed
here are exhaustive. -/
theorem orchestrator_short_circuits (env : NetEnv) :
    (∀ e, fetchMyIP env.ipNet = .error e →
      nextISSTimesForMyLocation env = ⟨[(some e, none)], [.ipStep]⟩) ∧
    (∀ ip e, fetchMyIP env.ipNet = .ok ip →
      fetchCoordsByIP ip env.geoNet = .error e →
      nextISSTimesForMyLocation env = ⟨[(some e, none)], [.ipStep, .geoStep]⟩) ∧
    (∀ ip coords e, fetchMyIP env.ipNet = .ok ip →
      fetchCoordsByIP ip env.geoNet = .ok coords →
      fetchISSFlyOverTimes coords env.overpassNet = .callback (.error e) →
      nextISSTimesForMyLocation env =
        ⟨[(some e, none)], [.ipStep, .geoStep, .overpassStep]⟩) ∧
    (∀ ip coords e, fetchCoordsByIP ip env.geoNet = .ok coords →
      fetchISSFlyOverTimes coords env.overpassNet ≠ .thrown e) := by
  refine ⟨?_, ?_, ?_, ?_⟩
  · intro e h
    simp [nextISSTimesForMyLocation, h]
  · intro ip e h1 h2
    simp [nextISSTimesForMyLocation, h1, h2]
  · intro ip coords e h1 h2 h3
    simp [nextISSTimesForMyLocation, h1, h2, h3]
  · intro ip coords e h2 h3
    obtain ⟨la, lo, rfl⟩ := fetchCoordsByIP_ok_shape ip env.geoNet coords h2
    unfold fetchISSFlyOverTimes at h3
    repeat' split at h3
    all_goals simp_all [JSVal.getField]

/-- Witness for C1: a transport failure on the IP request short-circuits
after one network call; a transport failure on the geolocation request
short-circuits after two; a 500 "boom" response to the overpass request
reaches the completion callback as exactly the overpass lookup's status
error, after all three network calls. -/
theorem orchestrator_short_circuits_witness :
    nextISSTimesForMyLocation
      ⟨.transportErr "getaddrinfo ENOTFOUND api.ipify.org",
       .response 200 ⟨"", .error "Unexpected end of JSON input"⟩,
       .response 200 ⟨"", .error "Unexpected end of JSON input"⟩⟩ =
      ⟨[(some (.transport "getaddrinfo ENOTFOUND api.ipify.org"), none)], [.ipStep]⟩ ∧
    nextISSTimesForMyLocation
      ⟨.response 200 ⟨"\x7b\"ip\":\"1.2.3.4\"\x7d", .ok (.obj [("ip", .str "1.2.3.4")])⟩,
       .transportErr "socket hang up",
       .response 200 ⟨"", .error "Unexpected end of JSON input"⟩⟩ =
      ⟨[(some (.transport "socket hang up"), none)], [.ipStep, .geoStep]⟩ ∧
    nextISSTimesForMyLocation
      ⟨.response 200 ⟨"\x7b\"ip\":\"1.2.3.4\"\x7d", .ok (.obj [("ip", .str "1.2.3.4")])⟩,
       .response 200
         ⟨"\x7b\"success\":true,\"latitude\":37.1,\"longitude\":-122.1\x7d",
          .ok (.obj [("success", .bool true), ("latitude", .num 37.1),
                     ("longitude", .num (-122.1))])⟩,
       .response 500 ⟨"boom", .error "Unexpected token b in JSON at position 0"⟩⟩ =
      ⟨[(some (.errorObj "Status Code 500 when fetching IP. Response: boom"), none)],
       [.ipStep, .geoStep, .overpassStep]⟩ :=
  ⟨(orchestrator_short_circuits _).1 _ rfl,
   (orchestrator_short_circuits _).2.1 (.str "1.2.3.4") _ rfl rfl,
   (orchestrator_short_circuits _).2.2.1 (.str "1.2.3.4")
     (.obj [("latitude", .num 37.1), ("longitude", .num (-122.1))]) _ rfl rfl rfl⟩

/-- C2: when all three lookups succeed, the completion callback receives
exactly the overpass lookup's value, untouched, with a null error, and
all three requests were issued. -/
theorem orchestrator_passes_list_through (env : NetEnv) (ip coords fly : JSVal)
    (h1 : fetchMyIP env.ipNet = .ok ip)
    (h2 : fetchCoordsByIP ip env.geoNet = .ok coords)
    (h3 : fetchISSFlyOverTimes coords env.overpassNet = .callback (.ok fly)) :
    nextISSTimesForMyLocation env =
      ⟨[(none, some fly)], [.ipStep, .geoStep, .overpassStep]⟩ := by
  simp [nextISSTimesForMyLocation, h1, h2, h3]

/-- Witness for C2, with the mocked chain IP "1.2.3.4" →
coordinates (37.1, -122.1) → one overpass window
risetime 134564234, duration 600: the callback receives exactly that
one-element list. -/
theorem orchestrator_passes_list_through_witness :
    nextISSTimesForMyLocation
      ⟨.response 200 ⟨"\x7b\"ip\":\"1.2.3.4\"\x7d", .ok (.obj [("ip", .str "1.2.3.4")])⟩,
       .response 200
         ⟨"\x7b\"success\":true,\"latitude\":37.1,\"longitude\":-122.1\x7d",
          .ok (.obj [("success", .bool true), ("latitude", .num 37.1),
                     ("longitude", .num (-122.1))])⟩,
       .response 200
         ⟨"\x7b\"response\":[\x7b\"risetime\":134564234,\"duration\":600\x7d]\x7d",
          .ok (.obj [("response",
            .arr [.obj [("risetime", .num 134564234), ("duration", .num 600)]])])⟩⟩ =
      ⟨[(none, some (.arr [.obj [("risetime", .num 134564234), ("duration", .num 600)]]))],
       [.ipStep, .geoStep, .overpassStep]⟩ :=
  orchestrator_passes_list_through _ (.str "1.2.3.4")
    (.obj [("latitude", .num 37.1), ("longitude", .num (-122.1))])
    (.arr [.obj [("risetime", .num 134564234), ("duration", .num 600)]])
    rfl rfl rfl

/-- C6: the geolocation lookup never inspects the HTTP status code — two
responses differing only in status code produce identical outcomes, and a
transport failure passes the library's error through. -/
theorem fetchCoordsByIP_ignores_status (ip : JSVal) (c c' : Nat) (body : Body) :
    fetchCoordsByIP ip (.response c body) = fetchCoordsByIP ip (.response c' body) ∧
    ∀ e, fetchCoordsByIP ip (.transportErr e) = .error (.transport e) :=
  ⟨rfl, fun _ => rfl⟩

/-- C7: the orchestrator's completion callback is invoked exactly once per
run, either with an error and a null result or with a null error and a
result, never both. -/
theorem orchestrator_callback_exactly_once (env : NetEnv) :
    (nextISSTimesForMyLocation env).invocations.length = 1 ∧
    ((∃ e, (nextISSTimesForMyLocation env).invocations = [(some e, none)]) ∨
     (∃ v, (nextISSTimesForMyLocation env).invocations = [(none, some v)])) := by
  unfold nextISSTimesForMyLocation
  repeat' split
  all_goals first
    | exact ⟨rfl, Or.inl ⟨_, rfl⟩⟩
    | exact ⟨rfl, Or.inr ⟨_, rfl⟩⟩

/-- C8: two runs of the orchestrator against identical collaborator
behaviour produce identical outcomes — the module keeps no state between
calls. -/
theorem orchestrator_idempotent (env : NetEnv) :
    (runTwice env).1 = (runTwice env).2 := rfl

/-- C3 counterexample: on a parsed payload with `success: false` and
message "Invalid IP address", the geolocation lookup's error message is
the synthesized template, not the payload's message verbatim. -/
theorem geo_failure_message_not_verbatim :
    fetchCoordsByIP (.str "1.2.3.4")
      (.response 200
        ⟨"\x7b\"success\":false,\"message\":\"Invalid IP address\",\"ip\":\"1.2.3.4\"\x7d",
         .ok (.obj [("success", .bool false), ("message", .str "Invalid IP address"),
                    ("ip", .str "1.2.3.4")])⟩) =
      .error (.errorObj
        "Success status was false. Server message says: Invalid IP address when fetching for IP 1.2.3.4") ∧
    ("Success status was false. Server message says: Invalid IP address when fetching for IP 1.2.3.4"
      : String) ≠ "Invalid IP address" :=
  ⟨rfl, by decide⟩

/-- C3 amended: on a parsed payload whose `success` is falsy and whose
`message` is the string `ms`, the geolocation lookup reports a
service-constructed `Error` whose message embeds `ms` verbatim but
surrounds it with synthesized text naming the payload's success and ip
values. -/
theorem geo_failure_message_embeds_payload_message (ip : JSVal) (code : Nat)
    (body : Body) (data s2 msgVal ipField : JSVal) (ms : String)
    (hp : body.parsed = .ok data)
    (hs : data.getField "success" = .ok s2)
    (hfalsy : s2.truthy = false)
    (hm : data.getField "message" = .ok msgVal)
    (hms : msgVal = .str ms)
    (hi : data.getField "ip" = .ok ipField) :
    fetchCoordsByIP ip (.response code body) =
      .error (.errorObj ("Success status was " ++ s2.toDisplayString ++
        ". Server message says: " ++ ms ++
        " when fetching for IP " ++ ipField.toDisplayString)) := by
  simp [fetchCoordsByIP, hp, hs, hfalsy, hm, hms, hi, JSVal.toDisplayString]

/-- Witness for the amended C3, at the payload of the counterexample. -/
theorem geo_failure_message_embeds_payload_message_witness :
    fetchCoordsByIP (.str "1.2.3.4")
      (.response 200
        ⟨"\x7b\"success\":false,\"message\":\"Invalid IP address\",\"ip\":\"1.2.3.4\"\x7d",
         .ok (.obj [("success", .bool false), ("message", .str "Invalid IP address"),
                    ("ip", .str "1.2.3.4")])⟩) =
      .error (.errorObj ("Success status was " ++ (JSVal.bool false).toDisplayString ++
        ". Server message says: " ++ "Invalid IP address" ++
        " when fetching for IP " ++ (JSVal.str "1.2.3.4").toDisplayString)) :=
  geo_failure_message_embeds_payload_message (.str "1.2.3.4") 200 _ _ _ _ _
    "Invalid IP address" rfl rfl rfl rfl rfl rfl

/-- C4 counterexample: a 200 response whose body parses to an object
missing the expected field yields a success callback with an `undefined`
value — not a parse error — for both the IP lookup and the overpass
lookup. -/
theorem missing_field_yields_undefined_success :
    fetchMyIP (.response 200 ⟨"\x7b\x7d", .ok (.obj [])⟩) = .ok .undefined ∧
    fetchISSFlyOverTimes (.obj [("latitude", .num 37), ("longitude", .num (-122))])
      (.response 200 ⟨"\x7b\x7d", .ok (.obj [])⟩) = .callback (.ok .undefined) :=
  ⟨rfl, rfl⟩

/-- C4 amended: a 200 response whose body fails to parse yields the
`SyntaxError` to the callback; but a 200 response whose body parses to an
object missing the expected field (`ip` for the IP lookup, `response` for
the overpass lookup) yields a success callback whose value is
`undefined`, not a parse error. -/
theorem parse_error_vs_missing_field (body : Body) (coords : JSVal)
    (hco : coords.nullish = false) :
    (∀ m, body.parsed = .error m →
      fetchMyIP (.response 200 body) = .error (.syntaxError m)) ∧
    (∀ fs, body.parsed = .ok (.obj fs) → fs.lookup "ip" = none →
      fetchMyIP (.response 200 body) = .ok .undefined) ∧
    (∀ m, body.parsed = .error m →
      fetchISSFlyOverTimes coords (.response 200 body) =
        .callback (.error (.syntaxError m))) ∧
    (∀ fs, body.parsed = .ok (.obj fs) → fs.lookup "response" = none →
      fetchISSFlyOverTimes coords (.response 200 body) =
        .callback (.ok .undefined)) := by
  obtain ⟨la, hla⟩ := getField_ok_of_not_nullish coords hco "latitude"
  obtain ⟨lo, hlo⟩ := getField_ok_of_not_nullish coords hco "longitude"
  refine ⟨?_, ?_, ?_, ?_⟩
  · intro m hm
    simp [fetchMyIP, hm]
  · intro fs hp hlook
    simp [fetchMyIP, hp, JSVal.getField, hlook]
  · intro m hm
    simp [fetchISSFlyOverTimes, hla, hlo, hm]
  · intro fs hp hlook
    simp only [fetchISSFlyOverTimes, hla, hlo, hp]
    simp [JSVal.getField, hlook]

/-- Witness for the amended C4: a malformed body surfaces its
`SyntaxError`; a parseable body without the expected field yields
`undefined` as a success. -/
theorem parse_error_vs_missing_field_witness :
    fetchMyIP (.response 200
        ⟨"banana", .error "Unexpected token b in JSON at position 0"⟩) =
      .error (.syntaxError "Unexpected token b in JSON at position 0") ∧
    fetchISSFlyOverTimes (.obj [("latitude", .num 37), ("longitude", .num (-122))])
      (.response 200 ⟨"\x7b\"foo\":1\x7d", .ok (.obj [("foo", .num 1)])⟩) =
      .callback (.ok .undefined) :=
  ⟨(parse_error_vs_missing_field
      ⟨"banana", .error "Unexpected token b in JSON at position 0"⟩
      (.obj [("latitude", .num 37), ("longitude", .num (-122))]) rfl).1 _ rfl,
   (parse_error_vs_missing_field
      ⟨"\x7b\"foo\":1\x7d", .ok (.obj [("foo", .num 1)])⟩
      (.obj [("latitude", .num 37), ("longitude", .num (-122))]) rfl).2.2.2 _ rfl rfl⟩

/-- C5: a non-200 response makes the IP lookup and the overpass lookup
report an `Error` whose message carries the original status code and the
raw response body (and the callback's result slot is null). -/
theorem non200_yields_status_error (code : Nat) (body : Body) (hc : code ≠ 200)
    (coords : JSVal) (hco : coords.nullish = false) :
    fetchMyIP (.response code body) =
      .error (.errorObj ("Status Code " ++ toString code ++
        " when fetching IP. Response: " ++ body.raw)) ∧
    fetchISSFlyOverTimes coords (.response code body) =
      .callback (.error (.errorObj ("Status Code " ++ toString code ++
        " when fetching IP. Response: " ++ body.raw))) := by
  obtain ⟨la, hla⟩ := getField_ok_of_not_nullish coords hco "latitude"
  obtain ⟨lo, hlo⟩ := getField_ok_of_not_nullish coords hco "longitude"
  constructor
  · simp [fetchMyIP, hc]
  · simp [fetchISSFlyOverTimes, hla, hlo, hc]

/-- Witness for C5 at the spec's mock: status 500 with body "boom" yields
an error message carrying 500 and "boom". -/
theorem non200_yields_status_error_witness :
    fetchMyIP (.response 500 ⟨"boom", .error "Unexpected token b in JSON at position 0"⟩) =
      .error (.errorObj "Status Code 500 when fetching IP. Response: boom") ∧
    fetchISSFlyOverTimes (.obj [("latitude", .num 37), ("longitude", .num (-122))])
      (.response 500 ⟨"boom", .error "Unexpected token b in JSON at position 0"⟩) =
      .callback (.error (.errorObj "Status Code 500 when fetching IP. Response: boom")) :=
  non200_yields_status_error 500
    ⟨"boom", .error "Unexpected token b in JSON at position 0"⟩ (by decide)
    (.obj [("latitude", .num 37), ("longitude", .num (-122))]) rfl

/-- C9: on a parsed geolocation payload, any falsy `success` value —
`false`, `0`, or an absent field (read as `undefined`) — produces a
service-reported error, and coordinates are returned exactly when
`success` is truthy. -/
theorem geo_success_flag_decides (ip : JSVal) (code : Nat) (body : Body)
    (data succ : JSVal)
    (hp : body.parsed = .ok data)
    (hs : data.getField "success" = .ok succ) :
    (succ.truthy = false → ∃ m,
      fetchCoordsByIP ip (.response code body) = .error (.errorObj m)) ∧
    (succ.truthy = true → ∃ lat lon,
      data.getField "latitude" = .ok lat ∧ data.getField "longitude" = .ok lon ∧
      fetchCoordsByIP ip (.response code body) =
        .ok (.obj [("latitude", lat), ("longitude", lon)])) := by
  constructor
  · intro hfalsy
    obtain ⟨m, hm⟩ := getField_ok_of_getField_ok hs "message"
    obtain ⟨i, hi⟩ := getField_ok_of_getField_ok hs "ip"
    refine ⟨"Success status was " ++ succ.toDisplayString ++ ". Server message says: " ++
      m.toDisplayString ++ " when fetching for IP " ++ i.toDisplayString, ?_⟩
    simp [fetchCoordsByIP, hp, hs, hfalsy, hm, hi]
  · intro htruthy
    obtain ⟨lat, hla⟩ := getField_ok_of_getField_ok hs "latitude"
    obtain ⟨lon, hlo⟩ := getField_ok_of_getField_ok hs "longitude"
    exact ⟨lat, lon, hla, hlo, by simp [fetchCoordsByIP, hp, hs, htruthy, hla, hlo]⟩

/-- Witness for C9: a payload with the `success` field entirely absent is
treated as a service-reported error (the field reads as `undefined`,
which is falsy), and the resulting message is the synthesized template
over `undefined` values. -/
theorem geo_success_flag_decides_witness :
    (∃ m, fetchCoordsByIP (.str "1.2.3.4")
        (.response 200 ⟨"\x7b\x7d", .ok (.obj [])⟩) = .error (.errorObj m)) ∧
    fetchCoordsByIP (.str "1.2.3.4") (.response 200 ⟨"\x7b\x7d", .ok (.obj [])⟩) =
      .error (.errorObj
        "Success status was undefined. Server message says: undefined when fetching for IP undefined") :=
  ⟨(geo_success_flag_decides (.str "1.2.3.4") 200 ⟨"\x7b\x7d", .ok (.obj [])⟩
      (.obj []) .undefined rfl rfl).1 rfl, rfl⟩

/-- C10: on a parsed geolocation payload with truthy `success`, the
lookup returns exactly `{ latitude: payload.latitude, longitude:
payload.longitude }` as a success, with no presence or range validation
of either field. -/
theorem geo_returns_raw_coordinates (ip : JSVal) (code : Nat) (body : Body)
    (data succ lat lon : JSVal)
    (hp : body.parsed = .ok data)
    (hs : data.getField "success" = .ok succ)
    (ht : succ.truthy = true)
    (hla : data.getField "latitude" = .ok lat)
    (hlo : data.getField "longitude" = .ok lon) :
    fetchCoordsByIP ip (.response code body) =
      .ok (.obj [("latitude", lat), ("longitude", lon)]) := by
  simp [fetchCoordsByIP, hp, hs, ht, hla, hlo]

/-- Witness for C10: a payload carrying only `success: true` — both
coordinate fields absent — is still passed to the next stage as a success
whose coordinate record holds two `undefined` fields. -/
theorem geo_returns_raw_coordinates_witness :
    fetchCoordsByIP (.str "1.2.3.4")
      (.response 200 ⟨"\x7b\"success\":true\x7d", .ok (.obj [("success", .bool true)])⟩) =
      .ok (.obj [("latitude", .undefined), ("longitude", .undefined)]) :=
  geo_returns_raw_coordinates (.str "1.2.3.4") 200
    ⟨"\x7b\"success\":true\x7d", .ok (.obj [("success", .bool true)])⟩
    (.obj [("success", .bool true)]) (.bool true) .undefined .undefined
    rfl rfl rfl rfl rfl
